import Mathlib

/-!
Verification of the REPL input front-end (`src/repl/init.rs`).

Rust strings are modelled as `List Char`; `str::split(sep)` is embedded as
`splitChar`, `str::trim_start` as `trimStart`, `str::starts_with` as
`List.isPrefixOf`.  Fallible operations (`anyhow::Result`) are modelled with
`Except`, an error being its chain of context messages (most recent first).
-/

/-- Rust `str::split(sep)`: the list of pieces of the string between
occurrences of the separator character (a string with `n` separators yields
`n + 1` pieces, as in Rust). -/
def splitChar (sep : Char) : List Char → List (List Char)
  | [] => [[]]
  | c :: cs =>
      if c = sep then
        [] :: splitChar sep cs
      else
        match splitChar sep cs with
        | [] => [[c]]
        | p :: ps => (c :: p) :: ps

/-- The number of double-quote characters in a line (the claims' notion of
"double-quote count"). -/
def quoteCount (line : List Char) : Nat :=
  line.countP (fun c => c = '\"')

/-- Rust `char::is_whitespace`: the Unicode `White_Space` property
(U+0009..U+000D, U+0020, U+0085, U+00A0, U+1680, U+2000..U+200A, U+2028,
U+2029, U+202F, U+205F, U+3000). -/
def isRustWhitespace (c : Char) : Bool :=
  c.val == 0x09 || c.val == 0x0A || c.val == 0x0B || c.val == 0x0C ||
  c.val == 0x0D || c.val == 0x20 || c.val == 0x85 || c.val == 0xA0 ||
  c.val == 0x1680 || (0x2000 ≤ c.val && c.val ≤ 0x200A) ||
  c.val == 0x2028 || c.val == 0x2029 || c.val == 0x202F ||
  c.val == 0x205F || c.val == 0x3000

/-- Rust `str::trim_start`: drop leading Unicode whitespace. -/
def trimStart (line : List Char) : List Char :=
  line.dropWhile isRustWhitespace

/-- One step of the brace scan of `incomplete_brackets`: on `\x7b` push the
expected closing brace; on `\x7d` pop only when it matches the top of the
stack (the head of the list models the top, i.e. `Vec::last`). -/
def braceScanStep (balance : List Char) (c : Char) : List Char :=
  if c = '\x7b' then
    '\x7d' :: balance
  else if c = '\x7d' then
    match balance with
    | [] => balance
    | last :: rest => if last = c then rest else balance
  else balance

/-- The brace stack left by the for-loop of `incomplete_brackets` after a
left-to-right scan of the line, starting from an empty stack. -/
def braceScan (line : List Char) : List Char :=
  line.foldl braceScanStep []

/-- `incomplete_brackets` from `src/repl/init.rs`: trim leading whitespace;
if no multiline command is a prefix, return `false`; otherwise scan braces
and report whether the stack is non-empty. -/
def incomplete_brackets (line : List Char) (multiline_commands : List (List Char)) : Bool :=
  let l := trimStart line
  if !(multiline_commands.any (fun v => v.isPrefixOf l)) then
    false
  else
    !(braceScan l).isEmpty

/-- `reedline::ValidationResult`. -/
inductive ValidationResult
  | Complete
  | Incomplete
deriving DecidableEq

/-- The validator installed by `Repl::init`, holding the multiline trigger
commands. -/
structure ReplValidator where
  multiline_commands : List (List Char)

/-- `ReplValidator::validate`: Incomplete when the count of pieces of the
line split on `"` is even (i.e. the quote count is odd), or when
`incomplete_brackets` holds; Complete otherwise. -/
def ReplValidator.validate (v : ReplValidator) (line : List Char) : ValidationResult :=
  if (splitChar '\"' line).length % 2 == 0 || incomplete_brackets line v.multiline_commands then
    ValidationResult.Incomplete
  else
    ValidationResult.Complete

/-! ### Basic lemmas about the validator -/

theorem splitChar_length (sep : Char) (l : List Char) :
    (splitChar sep l).length = l.countP (fun c => c = sep) + 1 := by
  induction l with
  | nil => simp [splitChar]
  | cons c cs ih =>
    by_cases h : c = sep
    · simp [splitChar, h, List.countP_cons, ih]
    · cases hr : splitChar sep cs with
      | nil => rw [hr] at ih; simp at ih
      | cons p ps =>
        rw [hr] at ih
        simp only [splitChar, if_neg h, hr, List.length_cons, List.countP_cons]
        simp only [List.length_cons] at ih
        simp only [h, decide_eq_true_eq, if_false]
        omega

theorem splitChar_quote_length (l : List Char) :
    (splitChar '\"' l).length = quoteCount l + 1 :=
  splitChar_length _ l

theorem validate_eq_of_quote_even (v : ReplValidator) (line : List Char)
    (hq : quoteCount line % 2 = 0) :
    v.validate line =
      (if incomplete_brackets line v.multiline_commands then
        ValidationResult.Incomplete else ValidationResult.Complete) := by
  have hlen : (splitChar '\"' line).length % 2 = 1 := by
    rw [splitChar_quote_length]; omega
  simp [ReplValidator.validate, hlen]

theorem braceScanStep_nil (c : Char) (hc : c ≠ '\x7b') : braceScanStep [] c = [] := by
  simp only [braceScanStep, if_neg hc]
  split <;> rfl

theorem braceScan_eq_nil (l : List Char) (h : '\x7b' ∉ l) : braceScan l = [] := by
  induction l with
  | nil => rfl
  | cons c cs ih =>
    have hc : c ≠ '\x7b' := fun hcc => h (hcc ▸ List.mem_cons_self c cs)
    have hcs : '\x7b' ∉ cs := fun hm => h (List.mem_cons_of_mem c hm)
    show List.foldl braceScanStep (braceScanStep [] c) cs = []
    rw [braceScanStep_nil c hc]
    exact ih hcs

/-! ### Shared session state and prompt rendering -/

/-- Modelled from the spec: the role type of the `config` module is not in
`src/`; a role has a display name. -/
structure Role where
  name : List Char

/-- Modelled from the spec: the conversation type of the `config` module is
not in `src/`; a conversation carries a remaining-token integer, queried by
`reamind_tokens()`. -/
structure Conversation where
  reamind_tokens : Int

/-- Modelled from the spec: the shared session state owned by the
configuration collaborator (not in `src/`): optional active role, optional
active conversation, and the dynamic completion strings returned by
`repl_completions()`. -/
structure Config where
  role : Option Role
  conversation : Option Conversation
  repl_completions : List (List Char)

/-- `ReplPrompt` wraps the shared config. -/
structure ReplPrompt where
  config : Config

/-- `DEFAULT_MULTILINE_INDICATOR`. -/
def DEFAULT_MULTILINE_INDICATOR : List Char := "::: ".toList

/-- `MENU_NAME`. -/
def MENU_NAME : List Char := "completion_menu".toList

/-- `ReplPrompt::render_prompt_left`: the active role's name, else empty. -/
def ReplPrompt.render_prompt_left (p : ReplPrompt) : List Char :=
  match p.config.role with
  | some role => role.name
  | none => []

/-- `ReplPrompt::render_prompt_right`: the active conversation's remaining
tokens rendered with `to_string()` (decimal), else empty. -/
def ReplPrompt.render_prompt_right (p : ReplPrompt) : List Char :=
  match p.config.conversation with
  | some conversation => conversation.reamind_tokens.repr.toList
  | none => []

/-- `ReplPrompt::render_prompt_indicator`: `＄` when a conversation is
active, `〉` otherwise. -/
def ReplPrompt.render_prompt_indicator (p : ReplPrompt) : List Char :=
  if p.config.conversation.isSome then "＄".toList else "〉".toList

/-- `ReplPrompt::render_prompt_multiline_indicator`. -/
def ReplPrompt.render_prompt_multiline_indicator (_p : ReplPrompt) : List Char :=
  DEFAULT_MULTILINE_INDICATOR

/-- `reedline::PromptHistorySearchStatus`. -/
inductive PromptHistorySearchStatus
  | Passing
  | Failing
deriving DecidableEq

/-- `reedline::PromptHistorySearch`. -/
structure PromptHistorySearch where
  status : PromptHistorySearchStatus
  term : List Char

/-- `ReplPrompt::render_prompt_history_search_indicator`: format
`(<pre>reverse-search: <term>) ` where `<pre>` is `failing ` on a failing
search and empty on a passing one. -/
def ReplPrompt.render_prompt_history_search_indicator (_p : ReplPrompt)
    (history_search : PromptHistorySearch) : List Char :=
  let pre : List Char :=
    match history_search.status with
    | PromptHistorySearchStatus.Passing => "".toList
    | PromptHistorySearchStatus.Failing => "failing ".toList
  "(".toList ++ pre ++ "reverse-search: ".toList ++ history_search.term ++ ") ".toList

/-! ### Completion source -/

/-- Modelled from the spec: `reedline::DefaultCompleter` is not in `src/`.
It holds the word-internal inclusion characters, the minimum word length,
and the vocabulary; `insert` adds words, deduplicating the vocabulary, and
completion lookup is prefix-based, excluding candidates shorter than
`min_word_len` from matching. -/
structure DefaultCompleter where
  inclusions : List Char
  min_word_len : Nat
  vocabulary : List (List Char)

/-- Modelled from the spec: `DefaultCompleter::insert` adds the given words
to the vocabulary and deduplicates. -/
def DefaultCompleter.insert (c : DefaultCompleter) (words : List (List Char)) :
    DefaultCompleter :=
  { c with vocabulary := (c.vocabulary ++ words).dedup }

/-- Modelled from the spec: completion lookup returns the vocabulary entries
that the current word is a prefix of, excluding candidates shorter than
`min_word_len`. -/
def DefaultCompleter.complete (c : DefaultCompleter) (word : List Char) :
    List (List Char) :=
  c.vocabulary.filter (fun w => word.isPrefixOf w && c.min_word_len ≤ w.length)

/-- `Repl::create_completer`: static command names from the command table,
extended with the config's dynamic completions, inserted into a completer
with inclusions `.`, `-`, `_` and minimum word length 2. -/
def create_completer (repl_commands : List (List Char × List Char × Bool))
    (config : Config) : DefaultCompleter :=
  let completion := repl_commands.map (fun t => t.1) ++ config.repl_completions
  let completer : DefaultCompleter :=
    { inclusions := ['.', '-', '_'], min_word_len := 2, vocabulary := [] }
  completer.insert completion

/-! ### History and REPL initialization -/

/-- `reedline::FileBackedHistory`: a history with a maximum entry count and
a backing file path. -/
structure FileBackedHistory where
  capacity : Nat
  path : List Char

/-- An `anyhow` error, modelled as its chain of context messages, most
recently attached context first. -/
abbrev AnyhowError : Type := List (List Char)

/-- `anyhow::Context::with_context`: attach a context message to an error. -/
def with_context (msg : List Char) (e : AnyhowError) : AnyhowError :=
  msg :: e

/-- Modelled from the spec: the outcomes of the two fallible collaborators
used by `Repl::create_history`, neither of which is in `src/`:
`Config::history_file()` (resolving the history file path) and
`FileBackedHistory::with_file` (creating/opening the history file at that
path with a maximum entry count). -/
structure HistoryEnv where
  history_file : Except AnyhowError (List Char)
  with_file : Nat → List Char → Except AnyhowError FileBackedHistory

/-- `Repl::create_history`: open the file-backed history with capacity 1000
at the config's history path, attaching the context
`Failed to setup history file` to an open/create failure. -/
def create_history (env : HistoryEnv) : Except AnyhowError FileBackedHistory :=
  match env.history_file with
  | Except.error e => Except.error e
  | Except.ok path =>
    match env.with_file 1000 path with
    | Except.error e => Except.error (with_context "Failed to setup history file".toList e)
    | Except.ok h => Except.ok h

/-- The editor assembled by `Repl::init` (the parts with decision logic:
completer, history, validator, menu name). -/
structure Editor where
  completer : DefaultCompleter
  history : FileBackedHistory
  menu : List Char
  validator : ReplValidator

/-- The `Repl`: an editor plus the prompt over the shared config. -/
structure Repl where
  editor : Editor
  prompt : ReplPrompt

/-- `Repl::init`: derive the multiline commands from the command table
(names whose triggers-multiline flag is set), build the completer, create
the history (propagating its failure), and assemble the editor and prompt. -/
def Repl.init (env : HistoryEnv)
    (repl_commands : List (List Char × List Char × Bool))
    (config : Config) : Except AnyhowError Repl :=
  let multiline_commands :=
    (repl_commands.filter (fun t => t.2.2)).map (fun t => t.1)
  let completer := create_completer repl_commands config
  match create_history env with
  | Except.error e => Except.error e
  | Except.ok history =>
    Except.ok
      { editor :=
          { completer := completer
            history := history
            menu := MENU_NAME
            validator := { multiline_commands := multiline_commands } }
        prompt := { config := config } }

/-! ### Claim theorems: the validator -/

/-- C1: for every line with an even double-quote count that, after trimming
leading whitespace, starts with a multiline trigger word, `validate` returns
Incomplete if and only if the brace stack produced by the left-to-right scan
(pushing on `\x7b`, popping on a matching `\x7d`) is non-empty at the end of
the scan. -/
theorem validate_trigger_incomplete_iff_brace_stack (v : ReplValidator) (line : List Char)
    (hq : quoteCount line % 2 = 0)
    (ht : v.multiline_commands.any (fun w => w.isPrefixOf (trimStart line)) = true) :
    v.validate line = ValidationResult.Incomplete ↔ braceScan (trimStart line) ≠ [] := by
  rw [validate_eq_of_quote_even v line hq]
  have hib : incomplete_brackets line v.multiline_commands
      = !(braceScan (trimStart line)).isEmpty := by
    simp [incomplete_brackets, ht]
  rw [hib]
  cases braceScan (trimStart line) with
  | nil => simp
  | cons a as => simp

/-- Witness for C1, covering the spec's two examples: under the trigger
prefix `.edit`, the buffer holding `\x7bfoo \x7bbar\x7d` is Incomplete and
the buffer holding `\x7bfoo \x7bbar\x7d\x7d` is Complete. -/
theorem validate_trigger_incomplete_iff_brace_stack_witness :
    (ReplValidator.validate { multiline_commands := [".edit".toList] }
        ".edit \x7bfoo \x7bbar\x7d".toList = ValidationResult.Incomplete ↔
      braceScan (trimStart ".edit \x7bfoo \x7bbar\x7d".toList) ≠ []) ∧
    (ReplValidator.validate { multiline_commands := [".edit".toList] }
        ".edit \x7bfoo \x7bbar\x7d\x7d".toList = ValidationResult.Incomplete ↔
      braceScan (trimStart ".edit \x7bfoo \x7bbar\x7d\x7d".toList) ≠ []) ∧
    ReplValidator.validate { multiline_commands := [".edit".toList] }
        ".edit \x7bfoo \x7bbar\x7d".toList = ValidationResult.Incomplete ∧
    ReplValidator.validate { multiline_commands := [".edit".toList] }
        ".edit \x7bfoo \x7bbar\x7d\x7d".toList = ValidationResult.Complete :=
  ⟨validate_trigger_incomplete_iff_brace_stack _ _ (by decide) (by decide),
   validate_trigger_incomplete_iff_brace_stack _ _ (by decide) (by decide),
   by decide, by decide⟩

/-- C2: every line with an odd number of double-quote characters validates
Incomplete, whatever the trigger words and brace content. -/
theorem validate_odd_quotes_incomplete (v : ReplValidator) (line : List Char)
    (hq : quoteCount line % 2 = 1) :
    v.validate line = ValidationResult.Incomplete := by
  have hlen : (splitChar '\"' line).length % 2 = 0 := by
    rw [splitChar_quote_length]; omega
  simp [ReplValidator.validate, hlen]

/-- Witness for C2: a lone double quote validates Incomplete. -/
theorem validate_odd_quotes_incomplete_witness :
    ReplValidator.validate { multiline_commands := [] } ['\"']
      = ValidationResult.Incomplete :=
  validate_odd_quotes_incomplete _ _ (by decide)

/-- Shared helper: an even-quote line starting with no trigger word
validates Complete. -/
theorem validate_complete_of_no_trigger (v : ReplValidator) (line : List Char)
    (hq : quoteCount line % 2 = 0)
    (ht : v.multiline_commands.any (fun w => w.isPrefixOf (trimStart line)) = false) :
    v.validate line = ValidationResult.Complete := by
  rw [validate_eq_of_quote_even v line hq]
  simp [incomplete_brackets, ht]

/-- C3: every line with an even double-quote count that does not, after
trimming leading whitespace, start with any trigger word validates Complete,
regardless of its brace content. -/
theorem validate_no_trigger_complete (v : ReplValidator) (line : List Char)
    (hq : quoteCount line % 2 = 0)
    (ht : v.multiline_commands.any (fun w => w.isPrefixOf (trimStart line)) = false) :
    v.validate line = ValidationResult.Complete :=
  validate_complete_of_no_trigger v line hq ht

/-- Witness for C3: a non-triggering line with an unmatched open brace
validates Complete. -/
theorem validate_no_trigger_complete_witness :
    ReplValidator.validate { multiline_commands := [".edit".toList] }
      "\x7bfoo".toList = ValidationResult.Complete :=
  validate_no_trigger_complete _ _ (by decide) (by decide)

/-- C9: when every trigger word is non-empty, validating the empty buffer
returns Complete. -/
theorem validate_empty_complete (v : ReplValidator)
    (h : ∀ t ∈ v.multiline_commands, t ≠ []) :
    v.validate [] = ValidationResult.Complete := by
  have ht : v.multiline_commands.any (fun w => w.isPrefixOf (trimStart [])) = false := by
    rw [List.any_eq_false]
    intro t htm
    cases t with
    | nil => exact absurd rfl (h [] htm)
    | cons a as => simp [List.isPrefixOf]
  exact validate_complete_of_no_trigger v [] (by decide) ht

/-- Witness for C9: with the non-empty trigger `.edit`, the empty buffer
validates Complete. -/
theorem validate_empty_complete_witness :
    ReplValidator.validate { multiline_commands := [".edit".toList] } []
      = ValidationResult.Complete :=
  validate_empty_complete _ (by decide)

/-- C10: the scan tracks only curly braces, so every line with an even
double-quote count and no `\x7b` character validates Complete, even under a
trigger word and with stray `(`, `[` or `\x7d` characters. -/
theorem validate_no_open_brace_complete (v : ReplValidator) (line : List Char)
    (hq : quoteCount line % 2 = 0) (hb : '\x7b' ∉ line) :
    v.validate line = ValidationResult.Complete := by
  rw [validate_eq_of_quote_even v line hq]
  have hbs : braceScan (trimStart line) = [] := by
    apply braceScan_eq_nil
    intro hmem
    exact hb ((List.dropWhile_suffix _).sublist.subset hmem)
  have hib : incomplete_brackets line v.multiline_commands = false := by
    simp [incomplete_brackets, hbs]
  rw [hib]
  rfl

/-- Witness for C10: a triggering line with stray `(`, `[` and `\x7d`
characters but no `\x7b` validates Complete. -/
theorem validate_no_open_brace_complete_witness :
    ReplValidator.validate { multiline_commands := [".edit".toList] }
      ".edit (foo\x7d ]".toList = ValidationResult.Complete :=
  validate_no_open_brace_complete _ _ (by decide) (by decide)

/-! ### Claim theorems: prompt rendering -/

/-- C6: the prompt indicator is the glyph `＄` exactly when a conversation
is active, and `〉` otherwise; toggling the conversation field and
re-rendering toggles the glyph. -/
theorem render_prompt_indicator_glyphs (config : Config) (c : Conversation) :
    (ReplPrompt.render_prompt_indicator { config := config } = "＄".toList ↔
      config.conversation.isSome = true) ∧
    ReplPrompt.render_prompt_indicator
      { config := { config with conversation := some c } } = "＄".toList ∧
    ReplPrompt.render_prompt_indicator
      { config := { config with conversation := none } } = "〉".toList := by
  refine ⟨?_, ?_, ?_⟩
  · cases hc : config.conversation <;>
      simp [ReplPrompt.render_prompt_indicator, hc]
  · simp [ReplPrompt.render_prompt_indicator]
  · simp [ReplPrompt.render_prompt_indicator]

/-- C7: the left prompt segment is the active role's name when a role is
set and empty otherwise; the right segment is the active conversation's
remaining-token count rendered as decimal text when a conversation is
active and empty otherwise. -/
theorem render_prompt_left_right_spec (config : Config) :
    (∀ role, config.role = some role →
      ReplPrompt.render_prompt_left { config := config } = role.name) ∧
    (config.role = none →
      ReplPrompt.render_prompt_left { config := config } = []) ∧
    (∀ conversation, config.conversation = some conversation →
      ReplPrompt.render_prompt_right { config := config }
        = conversation.reamind_tokens.repr.toList) ∧
    (config.conversation = none →
      ReplPrompt.render_prompt_right { config := config } = []) := by
  refine ⟨?_, ?_, ?_, ?_⟩
  · intro role hr; simp [ReplPrompt.render_prompt_left, hr]
  · intro hr; simp [ReplPrompt.render_prompt_left, hr]
  · intro conversation hc; simp [ReplPrompt.render_prompt_right, hc]
  · intro hc; simp [ReplPrompt.render_prompt_right, hc]

/-- Witness for C7: with role `coder` and a conversation with 42 remaining
tokens the segments are `coder` and `42`; with neither set both segments
are empty. -/
theorem render_prompt_left_right_spec_witness :
    ReplPrompt.render_prompt_left
      { config := { role := some { name := "coder".toList },
                    conversation := some { reamind_tokens := 42 },
                    repl_completions := [] } } = "coder".toList ∧
    ReplPrompt.render_prompt_right
      { config := { role := some { name := "coder".toList },
                    conversation := some { reamind_tokens := 42 },
                    repl_completions := [] } } = "42".toList ∧
    ReplPrompt.render_prompt_left
      { config := { role := none, conversation := none,
                    repl_completions := [] } } = [] ∧
    ReplPrompt.render_prompt_right
      { config := { role := none, conversation := none,
                    repl_completions := [] } } = [] := by
  refine ⟨?_, ?_, ?_, ?_⟩
  · exact (render_prompt_left_right_spec _).1 { name := "coder".toList } rfl
  · exact ((render_prompt_left_right_spec _).2.2.1
      { reamind_tokens := 42 } rfl).trans (by decide)
  · exact (render_prompt_left_right_spec _).2.1 rfl
  · exact (render_prompt_left_right_spec _).2.2.2 rfl

/-- Regrouping lemma for concatenations whose three leftmost parts are
closed lists. -/
theorem append_group (A B C D X : List Char) (h : A ++ B ++ C = D) :
    A ++ (B ++ (C ++ X)) = D ++ X := by
  subst h
  simp [List.append_assoc]

/-- C8: the history-search indicator is exactly
`(failing reverse-search: <term>) ` on a failing search and exactly
`(reverse-search: <term>) ` on a passing one; the template includes the
word `failing ` only in the failing case. -/
theorem render_history_search_indicator_spec (p : ReplPrompt) (term : List Char) :
    p.render_prompt_history_search_indicator
        { status := PromptHistorySearchStatus.Failing, term := term }
      = "(failing reverse-search: ".toList ++ term ++ ") ".toList ∧
    p.render_prompt_history_search_indicator
        { status := PromptHistorySearchStatus.Passing, term := term }
      = "(reverse-search: ".toList ++ term ++ ") ".toList := by
  constructor
  · show "(".toList ++ ("failing ".toList ++ ("reverse-search: ".toList ++
      (term ++ ") ".toList)))
      = "(failing reverse-search: ".toList ++ (term ++ ") ".toList)
    exact append_group _ _ _ _ _ (by decide)
  · show "(".toList ++ ("".toList ++ ("reverse-search: ".toList ++
      (term ++ ") ".toList)))
      = "(reverse-search: ".toList ++ (term ++ ") ".toList)
    exact append_group _ _ _ _ _ (by decide)

/-! ### Claim theorems: completion source and initialization -/

/-- C4: the completion vocabulary built at construction is the
deduplicated union of the static command names and the dynamic completions
from the config, and no candidate shorter than 2 characters ever appears
as a completion match. -/
theorem create_completer_vocabulary_spec
    (repl_commands : List (List Char × List Char × Bool)) (config : Config) :
    (create_completer repl_commands config).vocabulary.Nodup ∧
    (∀ w, w ∈ (create_completer repl_commands config).vocabulary ↔
      (w ∈ repl_commands.map (fun t => t.1) ∨ w ∈ config.repl_completions)) ∧
    (∀ word m, m ∈ (create_completer repl_commands config).complete word →
      2 ≤ m.length) := by
  refine ⟨?_, ?_, ?_⟩
  · simp only [create_completer, DefaultCompleter.insert, List.nil_append]
    exact List.nodup_dedup _
  · intro w
    simp [create_completer, DefaultCompleter.insert, List.mem_dedup]
  · intro word m hm
    simp only [create_completer, DefaultCompleter.complete, DefaultCompleter.insert,
      List.mem_filter, Bool.and_eq_true, decide_eq_true_eq] at hm
    exact hm.2.2

/-- Witness for C4: a singleton command table gives a duplicate-free
vocabulary, and a concrete match of `.ab` has length at least 2. -/
theorem create_completer_vocabulary_spec_witness :
    (create_completer [(".ab".toList, [], true)]
      { role := none, conversation := none,
        repl_completions := [] }).vocabulary.Nodup ∧
    2 ≤ ".ab".toList.length :=
  ⟨(create_completer_vocabulary_spec _ _).1,
   (create_completer_vocabulary_spec [(".ab".toList, [], true)]
      { role := none, conversation := none, repl_completions := [] }).2.2
      [] ".ab".toList (by decide)⟩

/-- C5: when the history file cannot be created or opened, `Repl::init`
fails with an error carrying the context `Failed to setup history file`,
and never constructs the REPL. -/
theorem init_history_failure (env : HistoryEnv)
    (repl_commands : List (List Char × List Char × Bool)) (config : Config)
    (path : List Char) (e : AnyhowError)
    (h1 : env.history_file = Except.ok path)
    (h2 : env.with_file 1000 path = Except.error e) :
    Repl.init env repl_commands config
      = Except.error ("Failed to setup history file".toList :: e) ∧
    ∀ r, Repl.init env repl_commands config ≠ Except.ok r := by
  have hch : create_history env
      = Except.error ("Failed to setup history file".toList :: e) := by
    simp [create_history, h1, h2, with_context]
  constructor
  · simp [Repl.init, hch]
  · intro r
    simp [Repl.init, hch]

/-- Witness for C5: an environment whose open fails makes `Repl::init`
return the contextualized error. -/
theorem init_history_failure_witness :
    Repl.init
      { history_file := Except.ok "h.txt".toList,
        with_file := fun _ _ => Except.error ["open failed".toList] }
      [] { role := none, conversation := none, repl_completions := [] }
      = Except.error ["Failed to setup history file".toList, "open failed".toList] :=
  (init_history_failure _ _ _ "h.txt".toList ["open failed".toList] rfl rfl).1
